import Mathlib

/-!
Verification of the openclaw-worker scripts: a shallow embedding of the
two Node.js scripts — the OAuth authorizer (`oauth-flow.js`) and the MCP
tool invoker (`call-tool.js`) — together with theorems settling the
claims of the specification about token loading, token refresh, SSE response
parsing, session/request-id state, and OAuth callback handling.

JavaScript conventions are made explicit:
* a possibly-absent / possibly-null field is an `Option`;
* JS truthiness of a string value (`if (x)`) is "present and nonempty";
* JS truthiness of a number is "present and nonzero";
* mutation of the token record is modelled by returning the new record;
* network I/O is modelled by passing the remote response as an argument;
* `JSON.parse` is modelled by an oracle `parse : String → Option α`
  (`none` is the throwing case).
-/

namespace OpenClaw

/-- JS truthiness for an optional string: truthy iff present and nonempty. -/
def truthyStr : Option String → Bool
  | none => false
  | some s => s ≠ ""

/-- JS truthiness for an optional number (epoch milliseconds):
truthy iff present and nonzero. -/
def truthyInt : Option Int → Bool
  | none => false
  | some n => n ≠ 0

/-- JS truthiness for an optional nonnegative number (`expires_in` seconds):
truthy iff present and nonzero. -/
def truthyNat : Option Nat → Bool
  | none => false
  | some n => n ≠ 0

/-- The credential record (the JSON object persisted in
`~/.mcporter/cirra-tokens.json` or injected via `CIRRA_OAUTH_CACHE`).
Every field is optional because the record is read back from arbitrary
JSON; `expires_at` is `none` for JSON `null` or an absent field. -/
structure Tokens where
  server : Option String
  url : Option String
  client_id : Option String
  access_token : Option String
  refresh_token : Option String
  token_type : Option String
  expires_at : Option Int
  scope : Option String
  deriving Repr, DecidableEq

/-- Body of a successful response from the `POST {base}/token` endpoint
(used both by the authorization-code exchange and by refresh). -/
structure TokenResp where
  access_token : Option String
  refresh_token : Option String
  token_type : Option String
  scope : Option String
  expires_in : Option Nat
  deriving Repr, DecidableEq

/-- The `expires_at` computation shared by both scripts
(`call-tool.js` line 77 and `oauth-flow.js` line 224):
`newTokens.expires_in ? Date.now() + newTokens.expires_in * 1000 : null`.
JS truthiness means `expires_in: 0` takes the `null` branch. -/
def computeExpiresAt (now : Int) (expires_in : Option Nat) : Option Int :=
  if truthyNat expires_in then some (now + (expires_in.getD 0) * 1000) else none

/-- The same computation as worded by the spec: `expires_at` equals
`now + expires_in*1000` whenever `expires_in` is present, and is null
exactly when the response omitted it. -/
def specExpiresAt (now : Int) (expires_in : Option Nat) : Option Int :=
  expires_in.map (fun e => now + e * 1000)

/-- The credential record built by the authorizer after a successful code
exchange (`oauth-flow.js` lines 217–228). -/
def buildTokenData (now : Int) (clientId : String) (tr : TokenResp) : Tokens :=
  { server := some "cirra"
    url := some "https://mcp.cirra.ai"
    client_id := some clientId
    access_token := tr.access_token
    refresh_token := tr.refresh_token
    token_type := tr.token_type
    expires_at := computeExpiresAt now tr.expires_in
    scope := tr.scope }

/-- Where `loadTokens` found the credentials, or that it found none. -/
inductive LoadResult where
  | fromEnv (t : Tokens)
  | fromFile (t : Tokens)
  | noTokens
  deriving Repr, DecidableEq

/-- The file branch of `loadTokens` (`call-tool.js` lines 36–45):
`file` is the contents of the token file when the file exists, `parse` is the
`JSON.parse` oracle; a parse failure is logged and falls through to
returning null. -/
def loadTokensFile (parse : String → Option Tokens) (file : Option String) :
    LoadResult :=
  match file with
  | some s =>
      match parse s with
      | some t => LoadResult.fromFile t
      | none => LoadResult.noTokens
  | none => LoadResult.noTokens

/-- The function `loadTokens` (`call-tool.js` lines 25–46): try the `CIRRA_OAUTH_CACHE`
environment variable first (JS truthiness: set and nonempty); if it does
not parse, log and fall through to the on-disk token file; return null
when both fail. -/
def loadTokens (parse : String → Option Tokens) (envVar : Option String)
    (file : Option String) : LoadResult :=
  match envVar with
  | some s =>
      if s ≠ "" then
        match parse s with
        | some t => LoadResult.fromEnv t
        | none => loadTokensFile parse file
      else loadTokensFile parse file
  | none => loadTokensFile parse file

/-- Outcome of one `refreshTokens` run: the thrown-or-returned value, whether
the HTTP request to the token endpoint was issued, and the on-disk token
store after the run (`none` = no file). -/
structure RefreshOutcome where
  result : Except String Tokens
  httpRequested : Bool
  store : Option Tokens
  deriving Repr

/-- Response of the token endpoint as seen by `refreshTokens`: HTTP status
plus (when ok) the parsed JSON body. -/
structure RefreshHttp where
  ok : Bool
  status : Nat
  body : TokenResp
  deriving Repr, DecidableEq

/-- The function `refreshTokens` (`call-tool.js` lines 49–88). `envCacheSet` is the JS
truthiness of `process.env.CIRRA_OAUTH_CACHE` at line 82; `store` is the
on-disk token store before the call. Steps, in source order: throw
`No refresh token available` when `tokens.refresh_token` is falsy (before
any HTTP); issue the POST; throw on a non-ok status; overwrite
`access_token` unconditionally, `refresh_token` only when the value in the response is truthy, and recompute `expires_at`; write the file only when
`CIRRA_OAUTH_CACHE` is not set. -/
def refreshTokens (envCacheSet : Bool) (now : Int) (resp : RefreshHttp)
    (tokens : Tokens) (store : Option Tokens) : RefreshOutcome :=
  if ¬ truthyStr tokens.refresh_token then
    { result := Except.error "No refresh token available"
      httpRequested := false
      store := store }
  else if ¬ resp.ok then
    { result := Except.error ("Token refresh failed: " ++ toString resp.status)
      httpRequested := true
      store := store }
  else
    let t1 := { tokens with access_token := resp.body.access_token }
    let t2 := if truthyStr resp.body.refresh_token then
        { t1 with refresh_token := resp.body.refresh_token } else t1
    let t3 := { t2 with expires_at := computeExpiresAt now resp.body.expires_in }
    { result := Except.ok t3
      httpRequested := true
      store := if envCacheSet then store else some t3 }

/-- JS `String.prototype.includes`: substring containment. -/
def jsIncludes (s sub : String) : Bool := decide (sub.data <:+: s.data)

/-- JS string interpolation of a possibly-null value (`null` prints as
the four characters `null`). -/
def jsStr : Option String → String
  | some s => s
  | none => "null"

/-- Split a character list at every newline, the semantics of a JS split
at the newline character: the empty string yields one empty piece, a
trailing newline yields a trailing empty piece. -/
def splitNlChars : List Char → List (List Char)
  | [] => [[]]
  | c :: cs =>
      let rest := splitNlChars cs
      if c = '\n' then [] :: rest
      else
        match rest with
        | l :: ls => (c :: l) :: ls
        | [] => [[c]]

/-- JS split of `text` at every newline. -/
def jsSplitNl (s : String) : List String := (splitNlChars s.data).map String.mk

/-- JS blankness test: `data.trim()` compared with the empty string, i.e. every character is whitespace. -/
def jsBlank (s : String) : Bool := s.data.all Char.isWhitespace

/-- A JSON value parsed from one SSE `data:` payload (or from a plain JSON
body), as far as `call-tool.js` inspects it: its `jsonrpc` field, whether its
`id` field is defined (`parsed.id !== undefined`; JSON `null` counts as
defined), and the rest of the message kept opaque. -/
structure RpcMsg where
  jsonrpc : Option String
  idDefined : Bool
  payload : String
  deriving Repr, DecidableEq

/-- The selection test of `parseSSEResponse` (`call-tool.js` line 133):
`parsed.jsonrpc` strictly equal to the string `2.0` and `parsed.id !== undefined`. -/
def frameSelected (m : RpcMsg) : Bool :=
  decide (m.jsonrpc = some "2.0") && m.idDefined

/-- One iteration of the `parseSSEResponse` loop (`call-tool.js` lines
126–141): on a `data: ` line whose payload is nonblank, parses, and passes
the selection test, overwrite the accumulator; otherwise keep it. -/
def sseLine (parse : String → Option RpcMsg) (acc : Option RpcMsg)
    (line : String) : Option RpcMsg :=
  if List.isPrefixOf "data: ".data line.data then
    let data := String.mk (line.data.drop 6)
    if ¬ jsBlank data then
      match parse data with
      | some parsed => if frameSelected parsed then some parsed else acc
      | none => acc
    else acc
  else acc

/-- The function `parseSSEResponse` (`call-tool.js` lines 122–144): split the body on
newlines and run the overwrite loop starting from `null`. -/
def parseSSEResponse (parse : String → Option RpcMsg) (text : String) :
    Option RpcMsg :=
  (jsSplitNl text).foldl (sseLine parse) none

/-- The selected frame contributed by a single line, if any: the same
conditions as `sseLine`, viewed as a partial extraction. -/
def sseFrame (parse : String → Option RpcMsg) (line : String) :
    Option RpcMsg :=
  if List.isPrefixOf "data: ".data line.data then
    let data := String.mk (line.data.drop 6)
    if ¬ jsBlank data then
      match parse data with
      | some parsed => if frameSelected parsed then some parsed else none
      | none => none
    else none
  else none

/-- All selected frames of an SSE body, in order of appearance. -/
def sseSelectedFrames (parse : String → Option RpcMsg) (text : String) :
    List RpcMsg :=
  (jsSplitNl text).filterMap (sseFrame parse)

/-- An HTTP response to a `POST {base}/mcp` request, as far as `mcpCall`
inspects it: status, the `mcp-session-id` and `content-type` headers
(`headers.get` yields null when absent), and the body text. -/
structure McpHttpResponse where
  ok : Bool
  status : Nat
  sessionHeader : Option String
  contentType : Option String
  bodyText : String
  deriving Repr, DecidableEq

/-- Response decoding in `mcpCall` (`call-tool.js` lines 184–202): a non-ok
status throws; an event-stream content type (the content type, defaulted to the empty string, tested
with `includes`) goes through `parseSSEResponse`, where an empty selection
throws `No response received from SSE stream`; anything else is decoded
directly as JSON (`response.json()`, which throws on invalid JSON). -/
def mcpDecode (parse : String → Option RpcMsg) (r : McpHttpResponse) :
    Except String RpcMsg :=
  if ¬ r.ok then
    Except.error ("MCP call failed: " ++ toString r.status ++ " " ++ r.bodyText)
  else if jsIncludes (r.contentType.getD "") "text/event-stream" then
    match parseSSEResponse parse r.bodyText with
    | some result => Except.ok result
    | none => Except.error "No response received from SSE stream"
  else
    match parse r.bodyText with
    | some m => Except.ok m
    | none => Except.error "Unexpected end of JSON input"

/-- The module-level mutable state of `call-tool.js` (lines 21–22):
`sessionId` starts null, `messageId` starts 0. -/
structure McpState where
  sessionId : Option String
  messageId : Nat
  deriving Repr, DecidableEq

/-- The initial module state of a `call-tool.js` process. -/
def initialMcpState : McpState := { sessionId := none, messageId := 0 }

/-- The refresh guard of `mcpCall` (`call-tool.js` line 149):
`tokens.expires_at && Date.now() > tokens.expires_at - 60000`. -/
def shouldRefresh (now : Int) (tokens : Tokens) : Bool :=
  truthyInt tokens.expires_at && decide (now > tokens.expires_at.getD 0 - 60000)

/-- What one `mcpCall` did besides returning a value: whether it refreshed
the tokens first, the JSON-RPC `id` it sent, and the value of the
`Mcp-Session-Id` request header (`none` when the header was omitted). -/
structure McpCallObs where
  refreshed : Bool
  requestId : Nat
  sentSessionHeader : Option String
  deriving Repr, DecidableEq

/-- One `mcpCall` as a state transition (`call-tool.js` lines 147–183,
ignoring the body decoding handled by `mcpDecode`): run the refresh guard,
increment `messageId` and use it as the request id (`++messageId`), attach
`Mcp-Session-Id` iff this is not the initialize call and `sessionId` is
truthy, then — before the ok check — overwrite `sessionId` whenever the
`mcp-session-id` header of the response is truthy. -/
def mcpStep (now : Int) (tokens : Tokens) (isInit : Bool) (st : McpState)
    (resp : McpHttpResponse) : McpCallObs × McpState :=
  let refreshed := shouldRefresh now tokens
  let id := st.messageId + 1
  let sent := if !isInit && truthyStr st.sessionId then st.sessionId else none
  let sid := if truthyStr resp.sessionHeader then resp.sessionHeader
             else st.sessionId
  ({ refreshed := refreshed, requestId := id, sentSessionHeader := sent },
   { sessionId := sid, messageId := id })

/-- The per-call inputs of one `mcpCall` in a trace: the wall clock and
token record at call time, whether it is the initialize call, and the
response the server sent back. -/
structure CallSpec where
  now : Int
  tokens : Tokens
  isInit : Bool
  resp : McpHttpResponse
  deriving Repr

/-- Run a sequence of `mcpCall`s from a given module state, observing each
call. (The real process stops at the first throwing call; a trace of an
actual process is a prefix of such a run.) -/
def runCalls (st : McpState) : List CallSpec → List McpCallObs
  | [] => []
  | c :: cs =>
      let r := mcpStep c.now c.tokens c.isInit st c.resp
      r.1 :: runCalls r.2 cs

/-- A request hitting the local callback listener of the authorizer, as far as
the handler inspects it: the path and the `code`, `state`, `error`,
`error_description` query parameters (`searchParams.get` yields null when
absent). -/
structure CallbackReq where
  pathname : String
  code : Option String
  state : Option String
  error : Option String
  error_description : Option String
  deriving Repr, DecidableEq

/-- Outcome of the `exchangeCode` call, as seen by the handler:
either the parsed token response or a thrown error message. -/
inductive ExchangeOutcome where
  | success (tokens : TokenResp)
  | failure (msg : String)
  deriving Repr

/-- How the promise returned by `startCallbackServer` settles:
`resolved` with tokens and client id, or `rejected` with the message of
the `Error` passed to `reject`. -/
inductive Settled where
  | resolved (tokens : TokenResp) (clientId : String)
  | rejected (msg : String)
  deriving Repr, DecidableEq

/-- Everything one callback request causes: the HTTP status and body
written back, whether `server.close()` ran, how the promise settled
(`none` = still pending), and whether `exchangeCode` was invoked. -/
structure HandlerResult where
  status : Nat
  body : String
  serverClosed : Bool
  settled : Option Settled
  exchangeAttempted : Bool
  deriving Repr, DecidableEq

/-- The HTML page written on a successful exchange (`oauth-flow.js` lines
133–137, whitespace elided). -/
def successPage : String :=
  "<h1>Success!</h1><p>You can close this window and return to your terminal.</p><script>window.close()</script>"

/-- The request handler installed by `startCallbackServer` (`oauth-flow.js`
lines 100–147), with `state` the CSRF state generated for this attempt and
`exchange` the oracle for `exchangeCode`. Branches in source order: unknown
path → 404, nothing else happens; truthy `error` parameter → 400, close,
reject with the error code; `returnedState !== state` → 400, close, reject
with `State mismatch`; otherwise run the code exchange and resolve (200)
or reject with its error (500). -/
def callbackHandler (state : String) (clientId : String)
    (exchange : ExchangeOutcome) (req : CallbackReq) : HandlerResult :=
  if req.pathname ≠ "/callback" then
    { status := 404, body := "Not found", serverClosed := false,
      settled := none, exchangeAttempted := false }
  else if truthyStr req.error then
    { status := 400
      body := "<h1>Error</h1><p>" ++ jsStr req.error ++ ": " ++
        jsStr req.error_description ++ "</p>"
      serverClosed := true
      settled := some (Settled.rejected (jsStr req.error))
      exchangeAttempted := false }
  else if req.state ≠ some state then
    { status := 400
      body := "<h1>Error</h1><p>State mismatch - possible CSRF attack</p>"
      serverClosed := true
      settled := some (Settled.rejected "State mismatch")
      exchangeAttempted := false }
  else
    match exchange with
    | ExchangeOutcome.success tokens =>
        { status := 200, body := successPage, serverClosed := true,
          settled := some (Settled.resolved tokens clientId),
          exchangeAttempted := true }
    | ExchangeOutcome.failure msg =>
        { status := 500, body := "<h1>Error</h1><p>" ++ msg ++ "</p>",
          serverClosed := true
          settled := some (Settled.rejected msg)
          exchangeAttempted := true }

/-- The refresh condition as the spec states it: `expires_at` is non-null
and the current time is within 60 seconds of it or past it (so a call with
`expires_at` exactly 60 seconds away already refreshes). -/
def specRefreshCond (now : Int) (tokens : Tokens) : Bool :=
  tokens.expires_at.isSome && decide (now ≥ tokens.expires_at.getD 0 - 60000)

/-- The no-credentials exit of `main` (`call-tool.js` lines 256–262): the
process prints a hint and exits with status 1 exactly when `loadTokens`
returned null. -/
def exitsWithNoCredentials (r : LoadResult) : Bool :=
  decide (r = LoadResult.noTokens)

/-! Concrete values used by counterexamples and witnesses. -/

/-- A well-formed credential record with a given refresh token and expiry. -/
def mkTokens (rt : Option String) (ea : Option Int) : Tokens :=
  { server := some "cirra"
    url := some "https://mcp.cirra.ai"
    client_id := some "client-1"
    access_token := some "AT0"
    refresh_token := rt
    token_type := some "bearer"
    expires_at := ea
    scope := some "mcp" }

/-- The record stored in the on-disk token file in the scenarios below. -/
def tokFile : Tokens := mkTokens (some "RT0") (some 5000000)

/-- A `JSON.parse` oracle that accepts exactly the token-file text. -/
def parseFileOnly : String → Option Tokens :=
  fun s => if s = "FILEJSON" then some tokFile else none

/-- A token-endpoint response granting a fresh access and refresh token
with a 3600-second lifetime. -/
def refreshOkBody : TokenResp :=
  { access_token := some "AT1"
    refresh_token := some "RT1"
    token_type := some "bearer"
    scope := none
    expires_in := some 3600 }

/-- The ok HTTP wrapper around `refreshOkBody`. -/
def refreshOkResp : RefreshHttp := { ok := true, status := 200, body := refreshOkBody }

/-- What `tokFile` becomes under `refreshOkResp` at time 1000000. -/
def tokFileRefreshed : Tokens :=
  { tokFile with access_token := some "AT1", refresh_token := some "RT1",
                 expires_at := some 4600000 }

/-- A token-endpoint response whose `expires_in` is the number 0. -/
def zeroLifeBody : TokenResp :=
  { access_token := some "AT2"
    refresh_token := none
    token_type := some "bearer"
    scope := none
    expires_in := some 0 }

/-- The ok HTTP wrapper around `zeroLifeBody`. -/
def zeroLifeResp : RefreshHttp := { ok := true, status := 200, body := zeroLifeBody }

/-- What `tokFile` becomes under `zeroLifeResp` at time 777. -/
def tokZeroRefreshed : Tokens :=
  { tokFile with access_token := some "AT2", expires_at := none }

/-- An ok MCP response with no session header, plain JSON content type. -/
def plainJsonResp : McpHttpResponse :=
  { ok := true, status := 200, sessionHeader := none,
    contentType := some "application/json", bodyText := "\x7b\x7d" }

/-- A failed (401) MCP response that nevertheless carries a session id
header. -/
def failedInitResp : McpHttpResponse :=
  { ok := false, status := 401, sessionHeader := some "sess-1",
    contentType := some "application/json", bodyText := "unauthorized" }

/-- A selected SSE frame, and a second, distinct selected frame. -/
def frameA : RpcMsg := { jsonrpc := some "2.0", idDefined := true, payload := "first" }

/-- The second of the two distinct selected frames. -/
def frameB : RpcMsg := { jsonrpc := some "2.0", idDefined := true, payload := "second" }

/-- A parse oracle producing `frameA` for payload `A` and `frameB` for
payload `B`. -/
def parseTwoFrames : String → Option RpcMsg :=
  fun s => if s = "A" then some frameA else if s = "B" then some frameB else none

/-- An event-stream MCP response whose body carries the payloads `A` then
`B` as SSE data frames. -/
def sseResp : McpHttpResponse :=
  { ok := true, status := 200, sessionHeader := none,
    contentType := some "text/event-stream; charset=utf-8",
    bodyText := "event: message\ndata: A\ndata: B\n\n" }

/-- A code-exchange oracle that succeeds with `refreshOkBody`. -/
def exchangeStub : ExchangeOutcome := ExchangeOutcome.success refreshOkBody

/-- A callback request carrying both an `error` parameter and a state that
does not match `GOODSTATE`. -/
def deniedBadStateReq : CallbackReq :=
  { pathname := "/callback", code := some "AC1", state := some "EVILSTATE",
    error := some "access_denied",
    error_description := some "the user denied the request" }

/-- A callback request carrying an `error` parameter and the matching
state `GOODSTATE`. -/
def deniedReq : CallbackReq :=
  { pathname := "/callback", code := none, state := some "GOODSTATE",
    error := some "access_denied",
    error_description := some "the user denied the request" }

/-! Theorems. -/

/-- C1: the claim reads the refresh policy as firing whenever the current
time is within 60 seconds of `expires_at` or past it, boundary included.
The code (`call-tool.js` line 149) uses a strict comparison, so a call made
with `expires_at` exactly 60 seconds in the future — here `now = 1000000`
and `expires_at = 1060000` — triggers no refresh although the claim says it
must trigger exactly one. -/
theorem C1_counterexample :
    specRefreshCond 1000000 (mkTokens (some "RT0") (some 1060000)) = true ∧
    shouldRefresh 1000000 (mkTokens (some "RT0") (some 1060000)) = false ∧
    (mcpStep 1000000 (mkTokens (some "RT0") (some 1060000)) false
        initialMcpState plainJsonResp).1.refreshed = false := by
  decide

/-- C1 (amended): an MCP call performs the refresh step iff `expires_at` is
a non-null, nonzero timestamp and the current time is strictly greater than
`expires_at - 60000` — i.e. strictly within 60 seconds of expiry or past
it; a call with `expires_at` 60 or more seconds in the future does not
refresh. -/
theorem C1_refresh_guard (now : Int) (tokens : Tokens) (isInit : Bool)
    (st : McpState) (resp : McpHttpResponse) :
    (mcpStep now tokens isInit st resp).1.refreshed = true ↔
      ∃ e, tokens.expires_at = some e ∧ e ≠ 0 ∧ e - 60000 < now := by
  cases h : tokens.expires_at with
  | none => simp [mcpStep, shouldRefresh, truthyInt, h]
  | some e =>
      simp [mcpStep, shouldRefresh, truthyInt, h]

/-- C2: the write-back decision does not inspect where the credentials came
from, only whether `CIRRA_OAUTH_CACHE` is set (`call-tool.js` line 82).
When the environment variable is set to unparseable text, `loadTokens`
falls back to the file — the credential source is the file — yet a
successful refresh does not write the updated record back: the store still
holds the stale record, refuting "written back if and only if the source
was the file". -/
theorem C2_counterexample :
    loadTokens parseFileOnly (some "not json") (some "FILEJSON") =
      LoadResult.fromFile tokFile ∧
    (refreshTokens true 1000000 refreshOkResp tokFile (some tokFile)).result =
      Except.ok tokFileRefreshed ∧
    tokFileRefreshed ≠ tokFile ∧
    (refreshTokens true 1000000 refreshOkResp tokFile (some tokFile)).store =
      some tokFile := by
  refine ⟨by decide, rfl, by decide, rfl⟩

/-- C2 (amended): after a refresh the on-disk token store is rewritten to
the updated record iff the refresh succeeded and `CIRRA_OAUTH_CACHE` is
unset; whenever the environment variable is set — whether or not the
credentials were actually loaded from it — the store is untouched. -/
theorem C2_write_back (envSet : Bool) (now : Int) (resp : RefreshHttp)
    (t : Tokens) (store : Option Tokens) :
    (refreshTokens envSet now resp t store).store =
      if envSet then store
      else
        match (refreshTokens envSet now resp t store).result with
        | Except.ok nt => some nt
        | Except.error _ => store := by
  unfold refreshTokens
  split
  · cases envSet <;> rfl
  · split
    · cases envSet <;> rfl
    · cases envSet <;> rfl

/-- C9: a refresh attempted on a record whose `refresh_token` is absent or
the empty string throws `No refresh token available` before issuing any
HTTP request, and leaves the token store exactly as it was (the record
itself is only mutated after the HTTP response arrives, so it is untouched
too). -/
theorem C9_no_refresh_token (envSet : Bool) (now : Int) (resp : RefreshHttp)
    (t : Tokens) (store : Option Tokens)
    (h : t.refresh_token = none ∨ t.refresh_token = some "") :
    refreshTokens envSet now resp t store =
      { result := Except.error "No refresh token available",
        httpRequested := false, store := store } := by
  have hb : truthyStr t.refresh_token = false := by
    rcases h with h | h <;> simp [truthyStr, h]
  unfold refreshTokens
  simp [hb]

/-- C9 witness: the missing-refresh-token guard at a concrete input. -/
theorem C9_witness :
    refreshTokens true 42 refreshOkResp (mkTokens none (some 99)) (some tokFile) =
      { result := Except.error "No refresh token available",
        httpRequested := false, store := some tokFile } :=
  C9_no_refresh_token true 42 refreshOkResp (mkTokens none (some 99))
    (some tokFile) (Or.inl rfl)

/-- C10: when `CIRRA_OAUTH_CACHE` is set but does not parse as JSON,
`loadTokens` does not fail — it behaves exactly like the file-only path;
credentials are then taken from a readable token file, and only when the
file is absent or unparseable does loading yield no credentials, which is
precisely the condition under which `main` exits with status 1. -/
theorem C10_env_fallback (parse : String → Option Tokens) (s : String)
    (file : Option String) (henv : parse s = none) :
    loadTokens parse (some s) file = loadTokensFile parse file ∧
    (file = none →
      loadTokens parse (some s) file = LoadResult.noTokens ∧
      exitsWithNoCredentials (loadTokens parse (some s) file) = true) ∧
    (∀ fs, file = some fs → parse fs = none →
      loadTokens parse (some s) file = LoadResult.noTokens ∧
      exitsWithNoCredentials (loadTokens parse (some s) file) = true) ∧
    (∀ fs t, file = some fs → parse fs = some t →
      loadTokens parse (some s) file = LoadResult.fromFile t ∧
      exitsWithNoCredentials (loadTokens parse (some s) file) = false) := by
  have h1 : loadTokens parse (some s) file = loadTokensFile parse file := by
    unfold loadTokens
    by_cases hs : s = "" <;> simp [hs, henv]
  refine ⟨h1, ?_, ?_, ?_⟩
  · intro hf
    rw [h1, hf]
    exact ⟨rfl, rfl⟩
  · intro fs hf hp
    rw [h1, hf]
    simp [loadTokensFile, hp, exitsWithNoCredentials]
  · intro fs t hf hp
    rw [h1, hf]
    simp [loadTokensFile, hp, exitsWithNoCredentials]

/-- C10 witness: an unparseable environment blob together with a readable
token file yields the file-sourced record and no exit. -/
theorem C10_witness :
    loadTokens parseFileOnly (some "garbage") (some "FILEJSON") =
      LoadResult.fromFile tokFile ∧
    exitsWithNoCredentials
      (loadTokens parseFileOnly (some "garbage") (some "FILEJSON")) = false :=
  (C10_env_fallback parseFileOnly "garbage" (some "FILEJSON")
      (by decide)).2.2.2 "FILEJSON" tokFile rfl (by decide)

/-- Request ids of a run: `mcpCall` sends `++messageId`, so from a state
with counter `k` a run of `n` calls sends ids `k+1, …, k+n`. -/
theorem runCalls_ids (st : McpState) (cs : List CallSpec) :
    (runCalls st cs).map McpCallObs.requestId =
      List.range' (st.messageId + 1) cs.length := by
  induction cs generalizing st with
  | nil => rfl
  | cons c cs ih =>
      simp only [runCalls, mcpStep, List.map_cons, List.length_cons,
        List.range'_succ]
      exact congrArg _ (ih _)

/-- C8: in one `call-tool.js` process (module state starting with
`messageId = 0`), the JSON-RPC ids attached to successive MCP requests are
exactly `1, 2, …, n` — they start at 1, are strictly increasing, and are
pairwise distinct. -/
theorem C8_request_ids (cs : List CallSpec) :
    (runCalls initialMcpState cs).map McpCallObs.requestId =
      List.range' 1 cs.length ∧
    ((runCalls initialMcpState cs).map McpCallObs.requestId).Pairwise (· < ·) ∧
    ((runCalls initialMcpState cs).map McpCallObs.requestId).Nodup := by
  have h := runCalls_ids initialMcpState cs
  refine ⟨h, ?_, ?_⟩ <;> rw [h]
  · exact List.pairwise_lt_range' 1 cs.length
  · exact List.nodup_range' 1 cs.length

/-- C4: the session id is not captured "on the first successful call after
initialize": `mcpCall` stores any truthy `mcp-session-id` response header
before even checking the status (`call-tool.js` lines 179–182). Here the
initialize call itself receives a 401 response carrying the header — no
successful call exists at all, and no call after initialize has happened —
yet the session id is already captured, and is then attached to the next
request. -/
theorem C4_counterexample :
    failedInitResp.ok = false ∧
    (mcpStep 0 tokFile true initialMcpState failedInitResp).1.sentSessionHeader
      = none ∧
    (mcpStep 0 tokFile true initialMcpState failedInitResp).2.sessionId
      = some "sess-1" ∧
    (mcpStep 0 tokFile false
        (mcpStep 0 tokFile true initialMcpState failedInitResp).2
        plainJsonResp).1.sentSessionHeader = some "sess-1" := by
  decide

/-- C4 (amended): the `Mcp-Session-Id` request header is omitted on the
initialize call and attached, with the stored value, to every non-initialize
call made while a session id is stored; the stored id is overwritten by any
truthy `mcp-session-id` response header — on any call, initialize included,
successful or not — is unchanged when the response carries none, and once
set is never cleared. -/
theorem C4_session_lifecycle (now : Int) (tokens : Tokens) (isInit : Bool)
    (st : McpState) (resp : McpHttpResponse) :
    (isInit = true →
      (mcpStep now tokens isInit st resp).1.sentSessionHeader = none) ∧
    (∀ s, isInit = false → st.sessionId = some s → s ≠ "" →
      (mcpStep now tokens isInit st resp).1.sentSessionHeader = some s) ∧
    (∀ h, resp.sessionHeader = some h → h ≠ "" →
      (mcpStep now tokens isInit st resp).2.sessionId = some h) ∧
    ((resp.sessionHeader = none ∨ resp.sessionHeader = some "") →
      (mcpStep now tokens isInit st resp).2.sessionId = st.sessionId) ∧
    (∀ s, st.sessionId = some s →
      ∃ s2, (mcpStep now tokens isInit st resp).2.sessionId = some s2) := by
  refine ⟨?_, ?_, ?_, ?_, ?_⟩
  · intro hinit
    simp [mcpStep, hinit]
  · intro s hinit hs hne
    simp [mcpStep, hinit, hs, truthyStr, hne]
  · intro h hh hne
    simp [mcpStep, hh, truthyStr, hne]
  · intro hh
    rcases hh with hh | hh <;> simp [mcpStep, hh, truthyStr]
  · intro s hs
    cases hh : resp.sessionHeader with
    | none => exact ⟨s, by simp [mcpStep, hh, truthyStr, hs]⟩
    | some h2 =>
        by_cases hne : h2 = ""
        · exact ⟨s, by simp [mcpStep, hh, truthyStr, hne, hs]⟩
        · exact ⟨h2, by simp [mcpStep, hh, truthyStr, hne]⟩

/-- C4 witness: a stored session id is attached to a non-initialize call. -/
theorem C4_witness :
    (mcpStep 7 tokFile false { sessionId := some "sess-1", messageId := 3 }
      plainJsonResp).1.sentSessionHeader = some "sess-1" :=
  (C4_session_lifecycle 7 tokFile false
      { sessionId := some "sess-1", messageId := 3 } plainJsonResp).2.1
    "sess-1" rfl rfl (by decide)

/-- C5: the handler checks the `error` parameter before the state
(`oauth-flow.js` lines 113–127), so a callback whose state differs from the
generated CSRF state but which also carries an `error` parameter fails with
the authorization error, not with the state-mismatch (CSRF) error — the
claim quantifies over every mismatched-state callback and is therefore
false on this input (the 400 response, closed listener and skipped exchange
still hold). -/
theorem C5_counterexample :
    deniedBadStateReq.state = some "EVILSTATE" ∧
    "EVILSTATE" ≠ "GOODSTATE" ∧
    (callbackHandler "GOODSTATE" "client-1" exchangeStub deniedBadStateReq).settled
      = some (Settled.rejected "access_denied") ∧
    (callbackHandler "GOODSTATE" "client-1" exchangeStub deniedBadStateReq).settled
      ≠ some (Settled.rejected "State mismatch") ∧
    (callbackHandler "GOODSTATE" "client-1" exchangeStub deniedBadStateReq).status
      = 400 ∧
    (callbackHandler "GOODSTATE" "client-1" exchangeStub
      deniedBadStateReq).exchangeAttempted = false := by
  decide

/-- C5 (amended): every callback request to `/callback` that carries no
(truthy) `error` parameter and whose `state` differs from the CSRF state of
the current attempt is answered with HTTP 400, closes the listener, rejects
with the state-mismatch (CSRF) error, and never reaches the token
exchange. -/
theorem C5_csrf_guard (state clientId : String) (ex : ExchangeOutcome)
    (req : CallbackReq)
    (hpath : req.pathname = "/callback")
    (herr : req.error = none ∨ req.error = some "")
    (hstate : req.state ≠ some state) :
    callbackHandler state clientId ex req =
      { status := 400
        body := "<h1>Error</h1><p>State mismatch - possible CSRF attack</p>"
        serverClosed := true
        settled := some (Settled.rejected "State mismatch")
        exchangeAttempted := false } := by
  have hb : truthyStr req.error = false := by
    rcases herr with h | h <;> simp [truthyStr, h]
  unfold callbackHandler
  simp [hpath, hb, hstate]

/-- C5 witness: a mismatched-state callback without an error parameter at a
concrete input. -/
theorem C5_witness :
    callbackHandler "GOODSTATE" "client-1" exchangeStub
      { pathname := "/callback", code := some "AC1", state := some "WRONG",
        error := none, error_description := none } =
      { status := 400
        body := "<h1>Error</h1><p>State mismatch - possible CSRF attack</p>"
        serverClosed := true
        settled := some (Settled.rejected "State mismatch")
        exchangeAttempted := false } :=
  C5_csrf_guard "GOODSTATE" "client-1" exchangeStub
    { pathname := "/callback", code := some "AC1", state := some "WRONG",
      error := none, error_description := none }
    rfl (Or.inl rfl) (by decide)

/-- C7: on a callback carrying an `error` parameter the handler rejects
with `new Error(error)` (`oauth-flow.js` line 117) — the rejection carries
the error code only; the description appears in the 400 response body but
not in the failure value, so the failure does not carry "the error code and
description" (the description here is not even a substring of the rejection
message); the 400 response, closed listener and skipped exchange hold. -/
theorem C7_counterexample :
    (callbackHandler "GOODSTATE" "client-1" exchangeStub deniedReq).settled
      = some (Settled.rejected "access_denied") ∧
    ¬ ("the user denied the request".data <:+: "access_denied".data) ∧
    jsIncludes (callbackHandler "GOODSTATE" "client-1" exchangeStub deniedReq).body
      "the user denied the request" = true ∧
    (callbackHandler "GOODSTATE" "client-1" exchangeStub deniedReq).status = 400 ∧
    (callbackHandler "GOODSTATE" "client-1" exchangeStub
      deniedReq).exchangeAttempted = false := by
  decide

/-- C7 (amended): every callback request to `/callback` carrying a truthy
`error` parameter is answered with HTTP 400 whose body shows the error code
and description, closes the listener, rejects with the authorization error
carrying the error code (only), and never attempts the token exchange. -/
theorem C7_error_param (state clientId : String) (ex : ExchangeOutcome)
    (req : CallbackReq) (e : String)
    (hpath : req.pathname = "/callback")
    (herr : req.error = some e) (hne : e ≠ "") :
    callbackHandler state clientId ex req =
      { status := 400
        body := "<h1>Error</h1><p>" ++ e ++ ": " ++
          jsStr req.error_description ++ "</p>"
        serverClosed := true
        settled := some (Settled.rejected e)
        exchangeAttempted := false } := by
  unfold callbackHandler
  simp [hpath, herr, truthyStr, hne, jsStr]

/-- C7 witness: the error-parameter branch at a concrete input. -/
theorem C7_witness :
    callbackHandler "GOODSTATE" "client-1" exchangeStub deniedReq =
      { status := 400
        body := "<h1>Error</h1><p>access_denied: the user denied the request</p>"
        serverClosed := true
        settled := some (Settled.rejected "access_denied")
        exchangeAttempted := false } := by
  rw [C7_error_param "GOODSTATE" "client-1" exchangeStub deniedReq
    "access_denied" rfl rfl (by decide)]
  decide

/-- C6: `expires_at` is not `now + expires_in*1000` whenever `expires_in`
is present — the code tests JS truthiness, so a response with
`expires_in: 0` (present) yields `expires_at: null` at both issuance sites,
where the claim requires `now + 0`. -/
theorem C6_counterexample :
    specExpiresAt 777 (some 0) = some 777 ∧
    computeExpiresAt 777 (some 0) = none ∧
    (buildTokenData 777 "client-1" zeroLifeBody).expires_at = none ∧
    (refreshTokens false 777 zeroLifeResp tokFile (some tokFile)).result =
      Except.ok tokZeroRefreshed ∧
    tokZeroRefreshed.expires_at = none := by
  refine ⟨by decide, by decide, by decide, rfl, rfl⟩

/-- C6 (amended): after a successful refresh the returned record has
`access_token` overwritten with the value from the response,
`refresh_token` overwritten only when the response supplies a nonempty one,
and `expires_at` recomputed; the recomputation — shared verbatim with the
authorizer `buildTokenData` site — yields `now + expires_in*1000` when
`expires_in` is present and nonzero, and `null` when it is absent or
zero. -/
theorem C6_token_update (envSet : Bool) (now : Int) (resp : RefreshHttp)
    (t : Tokens) (store : Option Tokens) (clientId : String) (tr : TokenResp)
    (hrt : truthyStr t.refresh_token = true) (hok : resp.ok = true) :
    (∃ nt, (refreshTokens envSet now resp t store).result = Except.ok nt ∧
      nt.access_token = resp.body.access_token ∧
      nt.refresh_token = (if truthyStr resp.body.refresh_token then
        resp.body.refresh_token else t.refresh_token) ∧
      nt.expires_at = computeExpiresAt now resp.body.expires_in) ∧
    (∀ e : Nat, e ≠ 0 → computeExpiresAt now (some e) = some (now + e * 1000)) ∧
    computeExpiresAt now none = none ∧
    computeExpiresAt now (some 0) = none ∧
    (buildTokenData now clientId tr).expires_at =
      computeExpiresAt now tr.expires_in := by
  refine ⟨?_, ?_, rfl, rfl, rfl⟩
  · unfold refreshTokens
    rw [if_neg (by simp [hrt]), if_neg (by simp [hok])]
    by_cases hr : truthyStr resp.body.refresh_token
    · exact ⟨_, rfl, by simp [hr], by simp [hr], rfl⟩
    · exact ⟨_, rfl, by simp [hr], by simp [hr], rfl⟩
  · intro e he
    simp [computeExpiresAt, truthyNat, he]

/-- C6 witness: the update rule at a concrete refresh. -/
theorem C6_witness :
    (∃ nt, (refreshTokens false 1000000 refreshOkResp tokFile
        (some tokFile)).result = Except.ok nt ∧
      nt.access_token = refreshOkResp.body.access_token ∧
      nt.refresh_token = (if truthyStr refreshOkResp.body.refresh_token then
        refreshOkResp.body.refresh_token else tokFile.refresh_token) ∧
      nt.expires_at = computeExpiresAt 1000000 refreshOkResp.body.expires_in) ∧
    (∀ e : Nat, e ≠ 0 →
      computeExpiresAt 1000000 (some e) = some (1000000 + e * 1000)) ∧
    computeExpiresAt 1000000 none = none ∧
    computeExpiresAt 1000000 (some 0) = none ∧
    (buildTokenData 1000000 "client-1" refreshOkBody).expires_at =
      computeExpiresAt 1000000 refreshOkBody.expires_in :=
  C6_token_update false 1000000 refreshOkResp tokFile (some tokFile)
    "client-1" refreshOkBody (by decide) rfl

/-- The loop body of `parseSSEResponse` keeps the accumulator unless the
line contributes a selected frame, in which case it overwrites it. -/
theorem sseLine_eq (parse : String → Option RpcMsg) (acc : Option RpcMsg)
    (line : String) :
    sseLine parse acc line = (sseFrame parse line).or acc := by
  unfold sseLine sseFrame
  dsimp only
  repeat' split
  all_goals rfl

/-- Taking `getLast?` of a nonempty list yields some element. -/
theorem getLast?_cons_isSome (y : RpcMsg) (ys : List RpcMsg) :
    ((y :: ys).getLast?).isSome := by
  induction ys generalizing y with
  | nil => rfl
  | cons z zs ih =>
      rw [List.getLast?_cons_cons]
      exact ih z

/-- Folding the `parseSSEResponse` loop over a list of lines yields the
last selected frame among them, falling back to the initial accumulator. -/
theorem sseFoldl (parse : String → Option RpcMsg) (lines : List String)
    (acc : Option RpcMsg) :
    lines.foldl (sseLine parse) acc =
      ((lines.filterMap (sseFrame parse)).getLast?).or acc := by
  induction lines generalizing acc with
  | nil => rfl
  | cons x xs ih =>
      rw [List.foldl_cons, ih, sseLine_eq, List.filterMap_cons]
      cases hx : sseFrame parse x with
      | none => rfl
      | some m =>
          cases hl : xs.filterMap (sseFrame parse) with
          | nil => rfl
          | cons y ys =>
              obtain ⟨k, hk⟩ :=
                Option.isSome_iff_exists.mp (getLast?_cons_isSome y ys)
              rw [List.getLast?_cons_cons, hk]
              rfl

/-- The function `parseSSEResponse` returns the last selected frame of the body. -/
theorem parseSSE_eq_getLast (parse : String → Option RpcMsg) (text : String) :
    parseSSEResponse parse text = (sseSelectedFrames parse text).getLast? := by
  unfold parseSSEResponse sseSelectedFrames
  rw [sseFoldl]
  exact Option.or_none

/-- C3: on an SSE body whose frames contain two distinct messages both
having `jsonrpc = "2.0"` and a defined `id`, `parseSSEResponse` returns the
last such frame, not the first: the loop overwrites `result` on every
match (`call-tool.js` line 134). -/
theorem C3_counterexample :
    sseSelectedFrames parseTwoFrames "data: A\ndata: B" = [frameA, frameB] ∧
    (sseSelectedFrames parseTwoFrames "data: A\ndata: B").head? = some frameA ∧
    frameA ≠ frameB ∧
    parseSSEResponse parseTwoFrames "data: A\ndata: B" = some frameB := by
  decide

/-- C3 (amended): when an MCP response is ok and declares an event-stream
content type, the body is split on newlines, each `data: ` frame with a
nonblank payload is parsed as JSON, and the call returns the LAST frame
whose `jsonrpc` is `2.0` and whose `id` is defined; if no such frame
exists the call fails with the empty-stream error. -/
theorem C3_sse_decode (parse : String → Option RpcMsg) (r : McpHttpResponse)
    (hok : r.ok = true)
    (hct : jsIncludes (r.contentType.getD "") "text/event-stream" = true) :
    mcpDecode parse r =
      match (sseSelectedFrames parse r.bodyText).getLast? with
      | some m => Except.ok m
      | none => Except.error "No response received from SSE stream" := by
  unfold mcpDecode
  rw [if_neg (by simp [hok]), if_pos (by simp [hct]), parseSSE_eq_getLast]

/-- C3 witness: the SSE decode at a concrete two-frame body (last frame
returned) — the hypotheses hold by computation. -/
theorem C3_witness :
    mcpDecode parseTwoFrames sseResp = Except.ok frameB := by
  rw [C3_sse_decode parseTwoFrames sseResp rfl (by decide)]
  rfl

end OpenClaw
